import Mathlib

/-!
Verification of the graphio-ontology-sdk core against its specification.

Shallow embedding of the Python source:
  - `src/graphio_sdk/operators.py`  — `QueryOp`, `Condition`, `LogicalCondition`
  - `src/graphio_sdk/edits.py`      — `EditableObject`, `ObjectTypeEditor.create`,
                                       `OntologyEditsBuilder` (`get_edits`, `commit`)
  - `src/graphio_sdk/query.py`      — `ObjectSetQuery` (`select`, `where`, `limit`,
                                       `execute`, `first`)
  - `src/graphio_sdk/ontology.py`   — `OntologyNamespace` (`register_object_type`,
                                       `load_object_type`, `get_object_type`)
  - `src/graphio_sdk/knowledge_graph/knowledge_graph.py`
                                    — `_resolve_object_type_id_by_name`

Python dynamic values are modelled by the `Json` type below (with `Json.null`
playing Python `None`); Python dicts are association lists in insertion order
(keys unique, first-match lookup — identical to dict semantics for the states
the code builds); exceptions are modelled with `Except String` / `Option`;
the HTTP transport is an explicit function parameter.
-/

set_option autoImplicit false

/-- A Python-style dynamic value (used for property values, wire messages and
server responses). `null` stands for Python `None`. -/
inductive Json where
  | null : Json
  | bool : Bool → Json
  | int : Int → Json
  | str : String → Json
  | arr : List Json → Json
  | obj : List (String × Json) → Json

/-- Python truthiness (`if v:`): `None`, `False`, `0`, `""`, `[]`, `{}` are falsy. -/
def Json.truthy : Json → Bool
  | .null => false
  | .bool b => b
  | .int n => n != 0
  | .str s => s != ""
  | .arr xs => !xs.isEmpty
  | .obj fs => !fs.isEmpty

/-- Python `v is None`. -/
def Json.isNull : Json → Bool
  | .null => true
  | _ => false

/-- Extract a string payload (Python code paths that require a `str`). -/
def Json.asStr : Json → Option String
  | .str s => some s
  | _ => none

/-- Python `d.get(k)`: `None` when the key is absent or the value is not a dict. -/
def jsonGet (v : Json) (k : String) : Json :=
  match v with
  | .obj fs => (fs.lookup k).getD .null
  | _ => .null

/-- The keys of a serialized dict (in insertion order). -/
def jsonKeys : Json → List String
  | .obj fs => fs.map Prod.fst
  | _ => []

/-- Python `item.get(k) == s` for a string `s` (equality with a non-string is `False`). -/
def jsonFieldEqStr (item : Json) (k s : String) : Bool :=
  match jsonGet item k with
  | .str v => v == s
  | _ => false

/-- `operators.QueryOp`: the query operator enum. -/
inductive QueryOp where
  | EQ | NE | GT | GTE | LT | LTE | LIKE | IN | IS_NULL | IS_NOT_NULL
deriving DecidableEq

/-- `QueryOp.value`: the lower-case wire mnemonic of each operator
(the Python enum member value). -/
def QueryOp.value : QueryOp → String
  | .EQ => "eq"
  | .NE => "ne"
  | .GT => "gt"
  | .GTE => "gte"
  | .LT => "lt"
  | .LTE => "lte"
  | .LIKE => "like"
  | .IN => "in"
  | .IS_NULL => "is_null"
  | .IS_NOT_NULL => "is_not_null"

/-- `operators.Condition`: one comparison predicate. `value` defaults to
Python `None`, modelled as `Json.null`. -/
structure Condition where
  field : String
  op : QueryOp
  value : Json

/-- `Condition.to_dict`: `{"field": .., "op": ..}` plus `"value"` exactly when
`self.value is not None`. -/
def Condition.to_dict (c : Condition) : List (String × Json) :=
  [("field", Json.str c.field), ("op", Json.str c.op.value)]
    ++ (if c.value.isNull then [] else [("value", c.value)])

/-- A predicate tree: a single `Condition` or a `LogicalCondition`
(`operators.LogicalCondition` holds an operator string and sub-predicates). -/
inductive Predicate where
  | cond : Condition → Predicate
  | logical : String → List Predicate → Predicate

mutual

/-- Serialization of a predicate tree: `Condition.to_dict` for leaves,
`LogicalCondition.to_dict` (`{op: [sub-dicts]}`) for logical nodes. -/
def Predicate.toDict : Predicate → Json
  | .cond c => Json.obj c.to_dict
  | .logical o cs => Json.obj [(o, Json.arr (Predicate.toDictList cs))]

/-- The list comprehension `[cond.to_dict() for cond in self.conditions]`. -/
def Predicate.toDictList : List Predicate → List Json
  | [] => []
  | p :: ps => Predicate.toDict p :: Predicate.toDictList ps

end

theorem Predicate.toDictList_eq_map (ps : List Predicate) :
    Predicate.toDictList ps = ps.map Predicate.toDict := by
  induction ps with
  | nil => rfl
  | cons p ps ih => simp [Predicate.toDictList, ih]

/-- C2: For every comparison predicate, the serialized dictionary contains the
key `"value"` iff the predicate's value is not the absence sentinel (`None`);
values such as `0`, `False`, `""`, `[]` are still emitted. The serialization
always contains the field name under `"field"` and the operator's lower-case
wire mnemonic under `"op"`. -/
theorem condition_to_dict_value_iff_not_none (c : Condition) :
    ("value" ∈ (c.to_dict).map Prod.fst ↔ c.value.isNull = false)
      ∧ (c.to_dict).lookup "field" = some (Json.str c.field)
      ∧ (c.to_dict).lookup "op" = some (Json.str c.op.value) := by
  refine ⟨?_, ?_, ?_⟩ <;>
    cases h : c.value.isNull <;>
      simp [Condition.to_dict, h, List.lookup]

/-- `edits.EditableObject`: a staged create/update. `element_id` is a dynamic
Python value (`None` when absent); the dynamic attribute interception
(`__setattr__`/`__getattr__`) is plain map access on `properties`. -/
structure EditableObject where
  object_type_id : String
  element_id : Json
  properties : List (String × Json)

/-- `EditableObject.to_message`: the wire message; the `"elementId"` key is
included exactly when `self.element_id` is truthy (`if self.element_id:`). -/
def EditableObject.to_message (o : EditableObject) : Json :=
  Json.obj ([("objectTypeId", Json.str o.object_type_id),
             ("properties", Json.obj o.properties)]
    ++ (if o.element_id.truthy then [("elementId", o.element_id)] else []))

/-- The keys of a staged object's wire message. -/
def EditableObject.messageKeys (o : EditableObject) : List String :=
  jsonKeys o.to_message

/-- The two input shapes accepted by `ObjectTypeEditor.create` / `edit`
(any other Python type raises `ValueError` before staging anything). -/
inductive CreateInput where
  | dict : List (String × Json) → CreateInput
  | obj : EditableObject → CreateInput

/-- Python `properties.update(kwargs)`: existing keys are overwritten in
place, new keys are appended in `kwargs` order. -/
def dictUpdate (d kw : List (String × Json)) : List (String × Json) :=
  d.map (fun p => match kw.lookup p.1 with | some v => (p.1, v) | none => p)
    ++ kw.filter (fun q => (d.lookup q.1).isNone)

/-- The `elementId` that the create helper reads off its input
(`new_object.get("elementId")` for a dict, `new_object.element_id` for a
staged object). -/
def CreateInput.elementId : CreateInput → Json
  | .dict d => (d.lookup "elementId").getD .null
  | .obj o => o.element_id

/-- `ObjectTypeEditor.create` input normalization: reads `elementId`, takes
`properties` (the whole dict when neither a `properties` nor an `elementId`
key is present, for backward compatibility), applies `kwargs`, and builds the
staged `EditableObject` that is appended to the creates buffer. Returns
`none` where the source raises (a non-dict `"properties"` value makes
`properties.update` raise). -/
def ObjectTypeEditor.create (object_type_id : String) (new_object : CreateInput)
    (kwargs : List (String × Json)) : Option EditableObject :=
  match new_object with
  | .dict d =>
    let element_id := (d.lookup "elementId").getD .null
    let props? : Option (List (String × Json)) :=
      if (d.lookup "properties").isNone && (d.lookup "elementId").isNone then
        some d
      else
        match d.lookup "properties" with
        | some (Json.obj p) => some p
        | some _ => none
        | none => some []
    props?.map fun properties =>
      { object_type_id := object_type_id,
        element_id := element_id,
        properties := dictUpdate properties kwargs }
  | .obj o =>
    some { object_type_id := object_type_id,
           element_id := o.element_id,
           properties := o.properties }

/-- `edits.OntologyEditsBuilder` staging state: the two buffers. -/
structure OntologyEditsBuilder where
  creates : List EditableObject
  updates : List EditableObject

/-- `OntologyEditsBuilder.get_edits`: all staged creates then all staged
updates, serialized, without clearing anything. -/
def OntologyEditsBuilder.get_edits (b : OntologyEditsBuilder) : List Json :=
  b.creates.map EditableObject.to_message
    ++ b.updates.map EditableObject.to_message

/-- `OntologyEditsBuilder.commit`, with the transport calls
(`client.ontology._execute_create` / `_execute_update`) passed explicitly; a
raised transport exception is `Except.error` and propagates with the builder
unchanged, since `self._creates.clear()` / `self._updates.clear()` run only
after both submissions return. -/
def OntologyEditsBuilder.commit (b : OntologyEditsBuilder)
    (execCreate execUpdate : List Json → Except String Json) :
    Except String (List (String × Json)) × OntologyEditsBuilder :=
  let createStep : Except String (List (String × Json)) :=
    if b.creates.isEmpty then .ok []
    else
      match execCreate (b.creates.map EditableObject.to_message) with
      | .ok r => .ok [("creates", r)]
      | .error e => .error e
  match createStep with
  | .error e => (.error e, b)
  | .ok results1 =>
    let updateStep : Except String (List (String × Json)) :=
      if b.updates.isEmpty then .ok results1
      else
        match execUpdate (b.updates.map EditableObject.to_message) with
        | .ok r => .ok (results1 ++ [("updates", r)])
        | .error e => .error e
    match updateStep with
    | .error e => (.error e, b)
    | .ok results2 => (.ok results2, { creates := [], updates := [] })

/-- C1: buffers are emptied exactly when `commit` fully succeeds: when the
create-phase transport call raises, `commit` propagates that error and leaves
the builder — hence `get_edits` — unchanged with every staged entry; whenever
`commit` returns successfully, `get_edits` of the resulting session is empty. -/
theorem commit_clears_buffers_iff_success (b : OntologyEditsBuilder)
    (execCreate execUpdate : List Json → Except String Json) :
    (∀ e, b.creates ≠ [] →
        execCreate (b.creates.map EditableObject.to_message) = .error e →
        b.commit execCreate execUpdate = (.error e, b))
      ∧ (∀ r b2, b.commit execCreate execUpdate = (.ok r, b2) →
          b2.get_edits = []) := by
  constructor
  · intro e hne hfail
    have hne2 : b.creates.isEmpty = false := by
      simp [List.isEmpty_iff, hne]
    simp [OntologyEditsBuilder.commit, hne2, hfail]
  · intro r b2 hok
    simp only [OntologyEditsBuilder.commit] at hok
    split at hok
    · simp at hok
    · split at hok
      · simp at hok
      · injection hok with h1 h2
        subst h2
        rfl

/-- C1 witness at a concrete session: a one-create session whose create
submission fails keeps the staged entry; a successful commit leaves an empty
pending-edit list. -/
theorem commit_clears_buffers_iff_success_witness :
    (OntologyEditsBuilder.commit ⟨[⟨"t1", Json.null, []⟩], []⟩
        (fun _ => .error "boom") (fun _ => .ok .null)
      = (.error "boom", ⟨[⟨"t1", Json.null, []⟩], []⟩))
      ∧ OntologyEditsBuilder.get_edits ⟨[], []⟩ = [] := by
  constructor
  · exact (commit_clears_buffers_iff_success ⟨[⟨"t1", Json.null, []⟩], []⟩
      (fun _ => .error "boom") (fun _ => .ok .null)).1 "boom" (by simp) rfl
  · exact (commit_clears_buffers_iff_success ⟨[⟨"t1", Json.null, []⟩], []⟩
      (fun _ => .ok .null) (fun _ => .ok .null)).2 [("creates", .null)] ⟨[], []⟩ rfl

/-- C4 counterexample: `create` with an input nested under
`properties`/`elementId` keys stages an object that carries the input's
`elementId`, and its wire message contains the `"elementId"` key — refuting
the claim that every staged pending edit produced by `create` carries none. -/
theorem create_keeps_element_id_counterexample :
    ObjectTypeEditor.create "t1"
        (.dict [("properties", Json.obj [("a", Json.int 1)]),
                ("elementId", Json.str "e1")]) []
      = some { object_type_id := "t1", element_id := Json.str "e1",
               properties := [("a", Json.int 1)] }
      ∧ "elementId" ∈ EditableObject.messageKeys
          { object_type_id := "t1", element_id := Json.str "e1",
            properties := [("a", Json.int 1)] } := by
  constructor
  · rfl
  · simp [EditableObject.messageKeys, EditableObject.to_message, jsonKeys,
      Json.truthy]

/-- C4 (amended): the staged pending edit appended to the creates buffer
carries exactly the `elementId` read off the input — `None` for a raw
properties mapping, the nested value for a `properties`/`elementId` shape,
the staged value for a previously staged object — and its serialized wire
message contains the `"elementId"` key iff that carried value is truthy. -/
theorem create_element_id_amended (object_type_id : String)
    (input : CreateInput) (kwargs : List (String × Json)) (o : EditableObject)
    (h : ObjectTypeEditor.create object_type_id input kwargs = some o) :
    o.element_id = input.elementId
      ∧ ("elementId" ∈ o.messageKeys ↔ o.element_id.truthy = true) := by
  refine ⟨?_, ?_⟩
  · cases input with
    | dict d =>
      simp only [ObjectTypeEditor.create, Option.map_eq_some'] at h
      obtain ⟨p, -, rfl⟩ := h
      rfl
    | obj o2 =>
      simp only [ObjectTypeEditor.create, Option.some.injEq] at h
      subst h
      rfl
  · cases htr : o.element_id.truthy <;>
      simp [EditableObject.messageKeys, EditableObject.to_message, jsonKeys, htr]

/-- C4 amended witness: a raw properties mapping stages an edit whose
`elementId` is `None` and whose wire message has no `"elementId"` key. -/
theorem create_element_id_amended_witness :
    (({ object_type_id := "t1", element_id := Json.null,
        properties := [("n", Json.int 3)] } : EditableObject).element_id
        = (CreateInput.dict [("n", Json.int 3)]).elementId)
      ∧ ("elementId" ∈ EditableObject.messageKeys
            { object_type_id := "t1", element_id := Json.null,
              properties := [("n", Json.int 3)] }
          ↔ Json.truthy Json.null = true) :=
  create_element_id_amended "t1" (.dict [("n", Json.int 3)]) [] _ rfl

/-- A registered object-type handle: the dynamically generated class of
`ontology.register_object_type`, carrying `_object_type_id`,
`_object_type_name` and `_properties` (modelled as a plain record). -/
structure TypeHandle where
  object_type_id : String
  object_type_name : String
  properties : List String
deriving DecidableEq

/-- Python truthiness of an `Optional[int]` (`if self._limit_value:`):
`None` and `0` are falsy. -/
def optIntTruthy : Option Int → Bool
  | none => false
  | some n => n != 0

/-- `query.ObjectSetQuery` builder state. `limit_value` is Python
`Optional[int]`. -/
structure ObjectSetQuery where
  object_type_class : TypeHandle
  select_fields : List String
  select_all : Bool
  conditions : List Predicate
  limit_value : Option Int

/-- `ObjectSetQuery.select`: no arguments or a `"*"` argument set select-all
mode and reset the explicit list; concrete names extend the accumulated
explicit list. -/
def ObjectSetQuery.select (q : ObjectSetQuery) (fields : List String) :
    ObjectSetQuery :=
  if fields.isEmpty || fields.contains "*" then
    { q with select_all := true, select_fields := [] }
  else
    { q with select_all := false, select_fields := q.select_fields ++ fields }

/-- `ObjectSetQuery.where` (named `whereConds` because `where` is reserved in
Lean): extends the accumulated condition list. -/
def ObjectSetQuery.whereConds (q : ObjectSetQuery) (conds : List Predicate) :
    ObjectSetQuery :=
  { q with conditions := q.conditions ++ conds }

/-- `ObjectSetQuery.limit`: stores the most recent value unchanged. -/
def ObjectSetQuery.limit (q : ObjectSetQuery) (count : Option Int) :
    ObjectSetQuery :=
  { q with limit_value := count }

/-- `ObjectSetQuery._build_where_clause`: no conditions → `None`; one →
its own serialization; several → `LogicalCondition("and", conditions)`
serialized. -/
def ObjectSetQuery.buildWhereClause (q : ObjectSetQuery) : Option Json :=
  match q.conditions with
  | [] => none
  | [c] => some c.toDict
  | cs => some (Predicate.logical "and" cs).toDict

/-- `ObjectSetQuery._get_select_fields`: select-all mode expands to the type
handle's `_properties` when truthy (non-empty) and `[]` otherwise; explicit
mode returns the accumulated list. -/
def ObjectSetQuery.getSelectFields (q : ObjectSetQuery) : List String :=
  if q.select_all then
    if !q.object_type_class.properties.isEmpty then
      q.object_type_class.properties
    else []
  else q.select_fields

/-- The `select_dto` built in `ObjectSetQuery.execute`: `"select"` is the
field list, or the literal `["*"]` when that list is empty; `"where"` is
added when the built clause is present (a built clause dict is never empty,
so Python dict truthiness agrees with presence); `"limit"` is added when the
stored limit value is truthy. -/
def ObjectSetQuery.buildSelectDto (q : ObjectSetQuery)
    (select_fields : List String) : Json :=
  Json.obj
    ([("select", Json.arr
        ((if select_fields.isEmpty then ["*"] else select_fields).map Json.str)),
      ("from", Json.str q.object_type_class.object_type_id)]
     ++ (match q.buildWhereClause with
         | some w => [("where", w)]
         | none => [])
     ++ (if optIntTruthy q.limit_value then
           [("limit", Json.int (q.limit_value.getD 0))]
         else []))

/-- `ObjectSetQuery.execute` with the transport call
(`client._execute_select`) passed explicitly and a call log recording each
descriptor handed to the transport: raises a usage error (without touching
the transport) when not in select-all mode and the field list is empty. -/
def ObjectSetQuery.execute (q : ObjectSetQuery)
    (transport : Json → Except String (List Json)) (calls : List Json) :
    Except String (List Json) × List Json :=
  let select_fields := q.getSelectFields
  if !q.select_all && select_fields.isEmpty then
    (.error "select() requires at least one field", calls)
  else
    let dto := q.buildSelectDto select_fields
    (transport dto, calls ++ [dto])

/-- `ObjectSetQuery.first`: saves `_limit_value`, overrides it with `1`,
executes, and restores the saved value in a `finally` block on both the
normal and the raising path; returns the head row or `None`. -/
def ObjectSetQuery.first (q : ObjectSetQuery)
    (transport : Json → Except String (List Json)) (calls : List Json) :
    Except String (Option Json) × ObjectSetQuery × List Json :=
  let original_limit := q.limit_value
  let q1 : ObjectSetQuery := { q with limit_value := some 1 }
  match q1.execute transport calls with
  | (.ok rows, calls2) =>
    (.ok rows.head?, { q1 with limit_value := original_limit }, calls2)
  | (.error e, calls2) =>
    (.error e, { q1 with limit_value := original_limit }, calls2)

theorem ObjectSetQuery.execute_eq_of_no_usage_error (q : ObjectSetQuery)
    (transport : Json → Except String (List Json)) (calls : List Json)
    (hno : (!q.select_all && (q.getSelectFields).isEmpty) = false) :
    q.execute transport calls
      = (transport (q.buildSelectDto q.getSelectFields),
         calls ++ [q.buildSelectDto q.getSelectFields]) := by
  unfold ObjectSetQuery.execute
  simp [hno]

/-- C5: the serialized top-level predicate is absent for zero supplied
predicates, the single predicate's own serialization for one, and an AND
combination of all supplied predicates in supply order for more than one;
and `where(p1)` then `where(p2)` builds the same state — hence the same
serialized tree — as `where(p1, p2)`. -/
theorem where_clause_combination (q : ObjectSetQuery) (p1 p2 : Predicate) :
    (q.conditions = [] → q.buildWhereClause = none)
      ∧ (∀ p, q.conditions = [p] → q.buildWhereClause = some p.toDict)
      ∧ (2 ≤ q.conditions.length →
          q.buildWhereClause
            = some (Json.obj
                [("and", Json.arr (q.conditions.map Predicate.toDict))]))
      ∧ (q.whereConds [p1]).whereConds [p2] = q.whereConds [p1, p2] := by
  refine ⟨?_, ?_, ?_, ?_⟩
  · intro h
    simp [ObjectSetQuery.buildWhereClause, h]
  · intro p h
    simp [ObjectSetQuery.buildWhereClause, h]
  · intro h
    rcases hq : q.conditions with _ | ⟨a, _ | ⟨b, cs⟩⟩
    · rw [hq] at h; simp at h
    · rw [hq] at h; simp at h
    · simp [ObjectSetQuery.buildWhereClause, hq, Predicate.toDict,
        Predicate.toDictList_eq_map]
  · simp [ObjectSetQuery.whereConds]

/-- C5 witness at concrete predicates: zero, one and two supplied conditions,
and the two-call / one-call `where` agreement. -/
theorem where_clause_combination_witness :
    (ObjectSetQuery.buildWhereClause
        ⟨⟨"tid", "T", []⟩, [], false, [], none⟩ = none)
      ∧ (ObjectSetQuery.buildWhereClause
          ⟨⟨"tid", "T", []⟩, [], false,
            [Predicate.cond ⟨"a", QueryOp.EQ, Json.int 1⟩], none⟩
          = some (Predicate.cond ⟨"a", QueryOp.EQ, Json.int 1⟩).toDict)
      ∧ (ObjectSetQuery.buildWhereClause
          ⟨⟨"tid", "T", []⟩, [], false,
            [Predicate.cond ⟨"a", QueryOp.EQ, Json.int 1⟩,
             Predicate.cond ⟨"b", QueryOp.GT, Json.int 2⟩], none⟩
          = some (Json.obj
              [("and", Json.arr
                ([Predicate.cond ⟨"a", QueryOp.EQ, Json.int 1⟩,
                  Predicate.cond ⟨"b", QueryOp.GT, Json.int 2⟩].map
                    Predicate.toDict))]))
      ∧ ((ObjectSetQuery.whereConds
            (ObjectSetQuery.whereConds ⟨⟨"tid", "T", []⟩, [], false, [], none⟩
              [Predicate.cond ⟨"a", QueryOp.EQ, Json.int 1⟩])
            [Predicate.cond ⟨"b", QueryOp.GT, Json.int 2⟩])
          = ObjectSetQuery.whereConds ⟨⟨"tid", "T", []⟩, [], false, [], none⟩
              [Predicate.cond ⟨"a", QueryOp.EQ, Json.int 1⟩,
               Predicate.cond ⟨"b", QueryOp.GT, Json.int 2⟩]) := by
  refine ⟨?_, ?_, ?_, ?_⟩
  · exact (where_clause_combination ⟨⟨"tid", "T", []⟩, [], false, [], none⟩
      (Predicate.cond ⟨"a", QueryOp.EQ, Json.int 1⟩)
      (Predicate.cond ⟨"b", QueryOp.GT, Json.int 2⟩)).1 rfl
  · exact (where_clause_combination
      ⟨⟨"tid", "T", []⟩, [], false,
        [Predicate.cond ⟨"a", QueryOp.EQ, Json.int 1⟩], none⟩
      (Predicate.cond ⟨"a", QueryOp.EQ, Json.int 1⟩)
      (Predicate.cond ⟨"b", QueryOp.GT, Json.int 2⟩)).2.1 _ rfl
  · exact (where_clause_combination
      ⟨⟨"tid", "T", []⟩, [], false,
        [Predicate.cond ⟨"a", QueryOp.EQ, Json.int 1⟩,
         Predicate.cond ⟨"b", QueryOp.GT, Json.int 2⟩], none⟩
      (Predicate.cond ⟨"a", QueryOp.EQ, Json.int 1⟩)
      (Predicate.cond ⟨"b", QueryOp.GT, Json.int 2⟩)).2.2.1 (by simp)
  · exact (where_clause_combination ⟨⟨"tid", "T", []⟩, [], false, [], none⟩
      (Predicate.cond ⟨"a", QueryOp.EQ, Json.int 1⟩)
      (Predicate.cond ⟨"b", QueryOp.GT, Json.int 2⟩)).2.2.2

/-- C6: `select()` with no arguments and `select("*")` both set select-all
mode; in that mode the issued descriptor's `"select"` list equals the type
handle's full field list when that list is non-empty and the literal `["*"]`
marker when the type has no known fields; in explicit-field mode with an
empty accumulated field list, `execute` raises a usage error and the
transport is never invoked (the call log is unchanged). -/
theorem execute_field_resolution (q : ObjectSetQuery)
    (transport : Json → Except String (List Json)) (calls : List Json) :
    ((q.select []).select_all = true ∧ (q.select ["*"]).select_all = true)
      ∧ (q.select_all = true → q.object_type_class.properties ≠ [] →
          q.execute transport calls
            = (transport (q.buildSelectDto q.object_type_class.properties),
               calls ++ [q.buildSelectDto q.object_type_class.properties])
            ∧ jsonGet (q.buildSelectDto q.object_type_class.properties) "select"
                = Json.arr (q.object_type_class.properties.map Json.str))
      ∧ (q.select_all = true → q.object_type_class.properties = [] →
          q.execute transport calls
            = (transport (q.buildSelectDto []), calls ++ [q.buildSelectDto []])
            ∧ jsonGet (q.buildSelectDto []) "select" = Json.arr [Json.str "*"])
      ∧ (q.select_all = false → q.select_fields = [] →
          q.execute transport calls
            = (.error "select() requires at least one field", calls)) := by
  refine ⟨⟨?_, ?_⟩, ?_, ?_, ?_⟩
  · simp [ObjectSetQuery.select]
  · simp [ObjectSetQuery.select]
  · intro hsa hne
    have hie : q.object_type_class.properties.isEmpty = false := by
      cases hp : q.object_type_class.properties with
      | nil => exact absurd hp hne
      | cons a l => rfl
    have hsf : q.getSelectFields = q.object_type_class.properties := by
      simp [ObjectSetQuery.getSelectFields, hsa, hie]
    have hno : (!q.select_all && (q.getSelectFields).isEmpty) = false := by
      simp [hsa]
    refine ⟨?_, ?_⟩
    · have := q.execute_eq_of_no_usage_error transport calls hno
      rwa [hsf] at this
    · simp [ObjectSetQuery.buildSelectDto, jsonGet, hie, List.lookup]
  · intro hsa hpe
    have hsf : q.getSelectFields = [] := by
      simp [ObjectSetQuery.getSelectFields, hsa, hpe]
    have hno : (!q.select_all && (q.getSelectFields).isEmpty) = false := by
      simp [hsa]
    refine ⟨?_, ?_⟩
    · have := q.execute_eq_of_no_usage_error transport calls hno
      rwa [hsf] at this
    · simp [ObjectSetQuery.buildSelectDto, jsonGet, List.lookup]
  · intro hsa hsf
    simp [ObjectSetQuery.execute, ObjectSetQuery.getSelectFields, hsa, hsf]

/-- C6 witness: a wildcard query over fields `["x","y"]` issues them in the
descriptor, a wildcard query over a fieldless type issues `["*"]`, and an
explicit-mode query with no fields errors with an untouched call log. -/
theorem execute_field_resolution_witness :
    ((ObjectSetQuery.select ⟨⟨"tid", "T", ["x", "y"]⟩, [], true, [], none⟩
        []).select_all = true)
      ∧ (ObjectSetQuery.execute ⟨⟨"tid", "T", ["x", "y"]⟩, [], true, [], none⟩
            (fun _ => .ok []) []
          = (.ok [],
             [ObjectSetQuery.buildSelectDto
                ⟨⟨"tid", "T", ["x", "y"]⟩, [], true, [], none⟩ ["x", "y"]])
          ∧ jsonGet (ObjectSetQuery.buildSelectDto
                ⟨⟨"tid", "T", ["x", "y"]⟩, [], true, [], none⟩ ["x", "y"])
              "select" = Json.arr [Json.str "x", Json.str "y"])
      ∧ (ObjectSetQuery.execute ⟨⟨"tid", "T", []⟩, [], true, [], none⟩
            (fun _ => .ok []) []
          = (.ok [],
             [ObjectSetQuery.buildSelectDto
                ⟨⟨"tid", "T", []⟩, [], true, [], none⟩ []])
          ∧ jsonGet (ObjectSetQuery.buildSelectDto
                ⟨⟨"tid", "T", []⟩, [], true, [], none⟩ []) "select"
              = Json.arr [Json.str "*"])
      ∧ (ObjectSetQuery.execute ⟨⟨"tid", "T", ["x", "y"]⟩, [], false, [], none⟩
            (fun _ => .ok []) []
          = (.error "select() requires at least one field", [])) := by
  refine ⟨?_, ?_, ?_, ?_⟩
  · exact (execute_field_resolution ⟨⟨"tid", "T", ["x", "y"]⟩, [], true, [], none⟩
      (fun _ => .ok []) []).1.1
  · exact (execute_field_resolution ⟨⟨"tid", "T", ["x", "y"]⟩, [], true, [], none⟩
      (fun _ => .ok []) []).2.1 rfl (by simp)
  · exact (execute_field_resolution ⟨⟨"tid", "T", []⟩, [], true, [], none⟩
      (fun _ => .ok []) []).2.2.1 rfl rfl
  · exact (execute_field_resolution ⟨⟨"tid", "T", ["x", "y"]⟩, [], false, [], none⟩
      (fun _ => .ok []) []).2.2.2 rfl rfl

/-- C7: `first` leaves the stored limit value equal to what it was before the
call — on the normal path and on the raising path alike — and on a normal
return yields the head row, or `None` when the result is empty. -/
theorem first_restores_limit (q : ObjectSetQuery)
    (transport : Json → Except String (List Json)) (calls : List Json) :
    ((q.first transport calls).2.1.limit_value = q.limit_value)
      ∧ (∀ rows calls2,
          ({ q with limit_value := some 1 } : ObjectSetQuery).execute
              transport calls = (.ok rows, calls2) →
          (q.first transport calls).1 = .ok rows.head?)
      ∧ (∀ e calls2,
          ({ q with limit_value := some 1 } : ObjectSetQuery).execute
              transport calls = (.error e, calls2) →
          (q.first transport calls).1 = .error e) := by
  refine ⟨?_, ?_, ?_⟩
  · rcases hE : ({ q with limit_value := some 1 } : ObjectSetQuery).execute
        transport calls with ⟨res, calls2⟩
    cases res <;> simp [ObjectSetQuery.first, hE]
  · intro rows calls2 h
    simp [ObjectSetQuery.first, h]
  · intro e calls2 h
    simp [ObjectSetQuery.first, h]

/-- C7 witness: on a builder with stored limit 5, `first` returns the head
row and leaves the limit at 5; with a raising transport it propagates the
error and still leaves the limit at 5. -/
theorem first_restores_limit_witness :
    ((ObjectSetQuery.first ⟨⟨"tid", "T", ["x"]⟩, ["x"], false, [], some 5⟩
        (fun _ => .ok [Json.int 7]) []).2.1.limit_value = some 5)
      ∧ (ObjectSetQuery.first ⟨⟨"tid", "T", ["x"]⟩, ["x"], false, [], some 5⟩
          (fun _ => .ok [Json.int 7]) []).1 = .ok (some (Json.int 7))
      ∧ ((ObjectSetQuery.first ⟨⟨"tid", "T", ["x"]⟩, ["x"], false, [], some 5⟩
          (fun _ => .error "down") []).2.1.limit_value = some 5)
      ∧ (ObjectSetQuery.first ⟨⟨"tid", "T", ["x"]⟩, ["x"], false, [], some 5⟩
          (fun _ => .error "down") []).1 = .error "down" := by
  refine ⟨?_, ?_, ?_, ?_⟩
  · exact (first_restores_limit ⟨⟨"tid", "T", ["x"]⟩, ["x"], false, [], some 5⟩
      (fun _ => .ok [Json.int 7]) []).1
  · exact (first_restores_limit ⟨⟨"tid", "T", ["x"]⟩, ["x"], false, [], some 5⟩
      (fun _ => .ok [Json.int 7]) []).2.1 [Json.int 7] _ rfl
  · exact (first_restores_limit ⟨⟨"tid", "T", ["x"]⟩, ["x"], false, [], some 5⟩
      (fun _ => .error "down") []).1
  · exact (first_restores_limit ⟨⟨"tid", "T", ["x"]⟩, ["x"], false, [], some 5⟩
      (fun _ => .error "down") []).2.2 "down" _ rfl

/-- C10: the issued descriptor contains a `"limit"` key iff the stored limit
value is truthy; after `limit(0)` the builder stores `some 0` yet the
executed call is indistinguishable at the wire from one where `limit` was
never called. -/
theorem limit_key_iff_truthy (q : ObjectSetQuery)
    (transport : Json → Except String (List Json)) (calls : List Json)
    (hno : (!q.select_all && (q.getSelectFields).isEmpty) = false) :
    ("limit" ∈ jsonKeys (q.buildSelectDto q.getSelectFields)
        ↔ optIntTruthy q.limit_value = true)
      ∧ q.execute transport calls
          = (transport (q.buildSelectDto q.getSelectFields),
             calls ++ [q.buildSelectDto q.getSelectFields])
      ∧ (ObjectSetQuery.limit q (some 0)).limit_value = some 0
      ∧ ({ q with limit_value := some 0 } : ObjectSetQuery).execute
            transport calls
          = ({ q with limit_value := none } : ObjectSetQuery).execute
              transport calls := by
  refine ⟨?_, ?_, ?_, ?_⟩
  · cases hw : q.buildWhereClause <;>
      cases hl : optIntTruthy q.limit_value <;>
        simp [ObjectSetQuery.buildSelectDto, jsonKeys, hw, hl]
  · exact q.execute_eq_of_no_usage_error transport calls hno
  · rfl
  · have e0 := ObjectSetQuery.execute_eq_of_no_usage_error
      ({ q with limit_value := some 0 } : ObjectSetQuery) transport calls hno
    have e1 := ObjectSetQuery.execute_eq_of_no_usage_error
      ({ q with limit_value := none } : ObjectSetQuery) transport calls hno
    rw [e0, e1]
    simp [ObjectSetQuery.buildSelectDto, ObjectSetQuery.buildWhereClause,
      ObjectSetQuery.getSelectFields, optIntTruthy]

/-- C10 witness: a builder that called `limit(0)` stores `some 0`, issues a
descriptor without a `"limit"` key, and executes identically to a builder
that never called `limit`. -/
theorem limit_key_iff_truthy_witness :
    ("limit" ∈ jsonKeys (ObjectSetQuery.buildSelectDto
          ⟨⟨"tid", "T", ["x"]⟩, ["x"], false, [], some 0⟩ ["x"])
        ↔ optIntTruthy (some 0) = true)
      ∧ (ObjectSetQuery.execute ⟨⟨"tid", "T", ["x"]⟩, ["x"], false, [], some 0⟩
            (fun _ => .ok []) []
          = (.ok [], [ObjectSetQuery.buildSelectDto
              ⟨⟨"tid", "T", ["x"]⟩, ["x"], false, [], some 0⟩ ["x"]]))
      ∧ (ObjectSetQuery.limit
            ⟨⟨"tid", "T", ["x"]⟩, ["x"], false, [], some 0⟩ (some 0)).limit_value
          = some 0
      ∧ ObjectSetQuery.execute ⟨⟨"tid", "T", ["x"]⟩, ["x"], false, [], some 0⟩
            (fun _ => .ok []) []
          = ObjectSetQuery.execute ⟨⟨"tid", "T", ["x"]⟩, ["x"], false, [], none⟩
              (fun _ => .ok []) [] :=
  limit_key_iff_truthy ⟨⟨"tid", "T", ["x"]⟩, ["x"], false, [], some 0⟩
    (fun _ => .ok []) [] rfl

/-- `OntologyNamespace` registry state: `_object_types` (name → handle) and
`_object_type_id_to_name` (id → name), Python dicts as insertion-ordered
association lists. The cache lock only serializes access and has no effect
on the sequential semantics modelled here. -/
structure OntologyNamespace where
  object_types : List (String × TypeHandle)
  object_type_id_to_name : List (String × String)

/-- `register_object_type`: when `name` is already registered the existing
handle is returned and nothing changes; otherwise a handle is created with
the supplied id and `properties or []`, and both maps gain an entry. (The
property-descriptor and `objects`-namespace side effects carry no registry
state and are outside the model.) -/
def OntologyNamespace.register_object_type (reg : OntologyNamespace)
    (name : String) (object_type_id : String)
    (properties : Option (List String)) : OntologyNamespace × TypeHandle :=
  match reg.object_types.lookup name with
  | some cls => (reg, cls)
  | none =>
    let cls : TypeHandle :=
      { object_type_id := object_type_id, object_type_name := name,
        properties := properties.getD [] }
    ({ object_types := reg.object_types ++ [(name, cls)],
       object_type_id_to_name :=
         reg.object_type_id_to_name ++ [(object_type_id, name)] }, cls)

/-- Python truthiness of an `Optional[str]` (`if name:`). -/
def optStrTruthy : Option String → Bool
  | none => false
  | some s => s != ""

/-- `[prop["name"] for prop in properties]`: `none` when an entry is not a
dict carrying a string `"name"` (the source raises `KeyError` there, or
later on the dynamic-class construction for a non-string name). -/
def propNames (props : List Json) : Option (List String) :=
  props.mapM (fun p => match p with
    | Json.obj fs => (fs.lookup "name").bind Json.asStr
    | _ => none)

/-- The tail of `load_object_type` once `ot_data` is in hand: check
`ot_data.get("id")` / `ot_data.get("name")` for truthiness, fetch the
property list, and register. Non-string `id`/`name` values are also `error`
(the source would raise while constructing the dynamic class). -/
def OntologyNamespace.loadFromOtData (reg : OntologyNamespace) (ot_data : Json)
    (fetchProps : String → Except String (List Json)) :
    Except String (OntologyNamespace × TypeHandle) :=
  let oid := jsonGet ot_data "id"
  let nm := jsonGet ot_data "name"
  if oid.truthy && nm.truthy then
    match oid.asStr, nm.asStr with
    | some oids, some nms =>
      match fetchProps oids with
      | .error e => .error e
      | .ok props =>
        match propNames props with
        | none => .error "invalid property data"
        | some property_names =>
          .ok (reg.register_object_type nms oids (some property_names))
    | _, _ => .error "invalid ObjectType data"
  else .error "invalid ObjectType data"

/-- `load_object_type`: cache check by (truthy) name, cache check by
(truthy) id, then the remote fetch — by id, or by name taking
`results[0]` — followed by `loadFromOtData`. The English error strings
stand in for the Korean `ValueError` messages of the source. -/
def OntologyNamespace.load_object_type (reg : OntologyNamespace)
    (object_type_id : Option String) (name : Option String)
    (fetchById : String → Except String Json)
    (fetchByName : String → Except String (List Json))
    (fetchProps : String → Except String (List Json)) :
    Except String (OntologyNamespace × TypeHandle) :=
  match name.bind
      (fun n => if n == "" then none else reg.object_types.lookup n) with
  | some cls => .ok (reg, cls)
  | none =>
    match object_type_id.bind
        (fun i =>
          if i == "" then none else reg.object_type_id_to_name.lookup i) with
    | some cached_name =>
      match reg.object_types.lookup cached_name with
      | some cls => .ok (reg, cls)
      | none => .error "KeyError: broken id-to-name index"
    | none =>
      let otData : Except String Json :=
        if optStrTruthy object_type_id then
          fetchById (object_type_id.getD "")
        else if optStrTruthy name then
          match fetchByName (name.getD "") with
          | .error e => .error e
          | .ok [] => .error ("ObjectType " ++ name.getD "" ++ " not found")
          | .ok (x :: _) => .ok x
        else .error "object_type_id or name is required"
      match otData with
      | .error e => .error e
      | .ok ot_data => reg.loadFromOtData ot_data fetchProps

/-- `get_object_type`: the cached handle when present, else a
`load_object_type` attempt with every raised failure swallowed to `None`. -/
def OntologyNamespace.get_object_type (reg : OntologyNamespace) (name : String)
    (fetchById : String → Except String Json)
    (fetchByName : String → Except String (List Json))
    (fetchProps : String → Except String (List Json)) :
    Option (OntologyNamespace × TypeHandle) :=
  match reg.object_types.lookup name with
  | some cls => some (reg, cls)
  | none =>
    match reg.load_object_type none (some name)
        fetchById fetchByName fetchProps with
    | .ok r => some r
    | .error _ => none

/-- `KnowledgeGraphNamespace._resolve_object_type_id_by_name`, candidate
selection: the first exact name match when one exists, else the first
candidate; `none` for an empty result (where the source raises). -/
def resolveObjectTypePick (object_type_name : String) (results : List Json) :
    Option Json :=
  match results with
  | [] => none
  | x :: xs =>
    some (((x :: xs).find?
      (fun item => jsonFieldEqStr item "name" object_type_name)).getD x)

/-- The rest of `_resolve_object_type_id_by_name`: extract the chosen
candidate's `"id"` and fail when it is falsy. -/
def resolveObjectTypeIdByName (object_type_name : String)
    (results : List Json) : Except String Json :=
  match resolveObjectTypePick object_type_name results with
  | none => .error ("ObjectType " ++ object_type_name ++ " not found")
  | some object_type =>
    let object_type_id := jsonGet object_type "id"
    if object_type_id.truthy then .ok object_type_id
    else .error ("ObjectType id not found: " ++ object_type_name)

theorem lookup_append_right {β : Type} (l : List (String × β)) (k : String)
    (v : β) (h : l.lookup k = none) : (l ++ [(k, v)]).lookup k = some v := by
  induction l with
  | nil => simp [List.lookup]
  | cons p l ih =>
    rcases p with ⟨a, b⟩
    cases hak : k == a with
    | true => simp [List.lookup, hak] at h
    | false =>
      simp only [List.cons_append, List.lookup, hak] at h ⊢
      exact ih h

/-- C8: registration is idempotent per name: after a first registration of
an unregistered name, a second `register_object_type` with that name — with
any other id and field list — returns the identical handle and the registry
maps unchanged; the handle keeps the first registration's id and fields. -/
theorem register_object_type_idempotent (reg : OntologyNamespace)
    (name id1 id2 : String) (props1 props2 : Option (List String))
    (hnew : reg.object_types.lookup name = none) :
    ((reg.register_object_type name id1 props1).1.register_object_type
          name id2 props2
        = reg.register_object_type name id1 props1)
      ∧ (reg.register_object_type name id1 props1).2.object_type_id = id1
      ∧ (reg.register_object_type name id1 props1).2.properties
          = props1.getD [] := by
  have h1 : reg.register_object_type name id1 props1
      = ({ object_types :=
             reg.object_types ++ [(name, ⟨id1, name, props1.getD []⟩)],
           object_type_id_to_name :=
             reg.object_type_id_to_name ++ [(id1, name)] },
         ⟨id1, name, props1.getD []⟩) := by
    simp [OntologyNamespace.register_object_type, hnew]
  refine ⟨?_, ?_, ?_⟩
  · rw [h1]
    simp [OntologyNamespace.register_object_type,
      lookup_append_right reg.object_types name _ hnew]
  · rw [h1]
  · rw [h1]

/-- C8 witness: registering `"T"` twice with different ids and field lists on
an empty registry returns the first handle both times and keeps the first
id/fields. -/
theorem register_object_type_idempotent_witness :
    ((OntologyNamespace.register_object_type ⟨[], []⟩ "T" "a"
          (some ["x"])).1.register_object_type "T" "b" (some ["y"])
        = OntologyNamespace.register_object_type ⟨[], []⟩ "T" "a" (some ["x"]))
      ∧ (OntologyNamespace.register_object_type ⟨[], []⟩ "T" "a"
          (some ["x"])).2.object_type_id = "a"
      ∧ (OntologyNamespace.register_object_type ⟨[], []⟩ "T" "a"
          (some ["x"])).2.properties = (some ["x"]).getD [] :=
  register_object_type_idempotent ⟨[], []⟩ "T" "a" "b"
    (some ["x"]) (some ["y"]) rfl

/-- C9: `get_object_type` returns the cached handle when the name is already
registered; otherwise it attempts the remote load, returning `None` on any
load failure and the load's result on success — it never raises — while the
lower-level `load_object_type` raises a descriptive error for the same
lookup-not-found absence. -/
theorem get_object_type_spec (reg : OntologyNamespace) (name : String)
    (fetchById : String → Except String Json)
    (fetchByName : String → Except String (List Json))
    (fetchProps : String → Except String (List Json)) :
    (∀ h, reg.object_types.lookup name = some h →
        reg.get_object_type name fetchById fetchByName fetchProps
          = some (reg, h))
      ∧ (∀ e, reg.object_types.lookup name = none →
          reg.load_object_type none (some name)
              fetchById fetchByName fetchProps = .error e →
          reg.get_object_type name fetchById fetchByName fetchProps = none)
      ∧ (∀ r, reg.object_types.lookup name = none →
          reg.load_object_type none (some name)
              fetchById fetchByName fetchProps = .ok r →
          reg.get_object_type name fetchById fetchByName fetchProps = some r)
      ∧ (name ≠ "" → reg.object_types.lookup name = none →
          fetchByName name = .ok [] →
          reg.load_object_type none (some name)
              fetchById fetchByName fetchProps
            = .error ("ObjectType " ++ name ++ " not found")) := by
  refine ⟨?_, ?_, ?_, ?_⟩
  · intro h hsome
    simp [OntologyNamespace.get_object_type, hsome]
  · intro e hnone hload
    simp [OntologyNamespace.get_object_type, hnone, hload]
  · intro r hnone hload
    simp [OntologyNamespace.get_object_type, hnone, hload]
  · intro hne hnone hfetch
    have hb : (name == "") = false := by simp [hne]
    simp [OntologyNamespace.load_object_type, optStrTruthy, hb, hnone, hfetch,
      hne]

/-- C9 witness: a cached name is returned from the cache; an uncached name
whose remote lookup is empty makes `get_object_type` return `None` while
`load_object_type` errors descriptively; an uncached name whose remote
lookup succeeds is loaded and registered. -/
theorem get_object_type_spec_witness :
    (OntologyNamespace.get_object_type ⟨[("Foo", ⟨"i", "Foo", []⟩)], []⟩ "Foo"
        (fun _ => .error "down") (fun _ => .ok []) (fun _ => .ok [])
      = some (⟨[("Foo", ⟨"i", "Foo", []⟩)], []⟩, ⟨"i", "Foo", []⟩))
      ∧ (OntologyNamespace.get_object_type ⟨[], []⟩ "Foo"
          (fun _ => .error "down") (fun _ => .ok []) (fun _ => .ok [])
        = none)
      ∧ (OntologyNamespace.load_object_type ⟨[], []⟩ none (some "Foo")
          (fun _ => .error "down") (fun _ => .ok []) (fun _ => .ok [])
        = .error ("ObjectType " ++ "Foo" ++ " not found"))
      ∧ (OntologyNamespace.get_object_type ⟨[], []⟩ "Foo"
          (fun _ => .error "down")
          (fun _ => .ok [Json.obj [("id", Json.str "i1"),
                                   ("name", Json.str "Foo")]])
          (fun _ => .ok [])
        = some (⟨[("Foo", ⟨"i1", "Foo", []⟩)], [("i1", "Foo")]⟩,
                ⟨"i1", "Foo", []⟩)) := by
  refine ⟨?_, ?_, ?_, ?_⟩
  · exact (get_object_type_spec ⟨[("Foo", ⟨"i", "Foo", []⟩)], []⟩ "Foo"
      (fun _ => .error "down") (fun _ => .ok []) (fun _ => .ok [])).1
      ⟨"i", "Foo", []⟩ rfl
  · exact (get_object_type_spec ⟨[], []⟩ "Foo"
      (fun _ => .error "down") (fun _ => .ok []) (fun _ => .ok [])).2.1
      ("ObjectType " ++ "Foo" ++ " not found") rfl rfl
  · exact (get_object_type_spec ⟨[], []⟩ "Foo"
      (fun _ => .error "down") (fun _ => .ok []) (fun _ => .ok [])).2.2.2
      (by decide) rfl rfl
  · exact (get_object_type_spec ⟨[], []⟩ "Foo"
      (fun _ => .error "down")
      (fun _ => .ok [Json.obj [("id", Json.str "i1"),
                               ("name", Json.str "Foo")]])
      (fun _ => .ok [])).2.2.1
      (⟨[("Foo", ⟨"i1", "Foo", []⟩)], [("i1", "Foo")]⟩, ⟨"i1", "Foo", []⟩)
      rfl rfl

/-- C3 counterexample: loading name `"Foo"` when the remote lookup returns
`[{id:"id1", name:"FooBar"}, {id:"id2", name:"Foo"}]` registers the first
candidate `"FooBar"`/`"id1"`, even though an exact-name match (`"Foo"`, the
second candidate) is present — refuting the claimed exact-match preference
for the candidate chosen for registration. -/
theorem load_object_type_pick_counterexample :
    (OntologyNamespace.load_object_type ⟨[], []⟩ none (some "Foo")
        (fun _ => .error "unused")
        (fun _ => .ok
          [Json.obj [("id", Json.str "id1"), ("name", Json.str "FooBar")],
           Json.obj [("id", Json.str "id2"), ("name", Json.str "Foo")]])
        (fun _ => .ok [])
      = .ok (⟨[("FooBar", ⟨"id1", "FooBar", []⟩)], [("id1", "FooBar")]⟩,
             ⟨"id1", "FooBar", []⟩))
      ∧ jsonFieldEqStr
          (Json.obj [("id", Json.str "id2"), ("name", Json.str "Foo")])
          "name" "Foo" = true :=
  ⟨rfl, rfl⟩

/-- C3 (amended): when a type is loaded by name, `load_object_type` always
hands the FIRST candidate of the remote result to registration, regardless
of any exact name match elsewhere in the list; the exact-name-match
preference exists only in the knowledge-graph resolver
`_resolve_object_type_id_by_name`, which for a non-empty candidate list
picks the first exact match when one exists and otherwise the first
candidate. -/
theorem load_object_type_pick_amended (reg : OntologyNamespace)
    (name : String) (cand : Json) (rest : List Json)
    (fetchById : String → Except String Json)
    (fetchByName : String → Except String (List Json))
    (fetchProps : String → Except String (List Json))
    (hne : name ≠ "") (hlk : reg.object_types.lookup name = none)
    (hfetch : fetchByName name = .ok (cand :: rest)) :
    (reg.load_object_type none (some name) fetchById fetchByName fetchProps
        = reg.loadFromOtData cand fetchProps)
      ∧ (∀ (n2 : String) (x : Json) (xs : List Json) (c : Json),
          (x :: xs).find? (fun item => jsonFieldEqStr item "name" n2)
              = some c →
          resolveObjectTypePick n2 (x :: xs) = some c)
      ∧ (∀ (n2 : String) (x : Json) (xs : List Json),
          (x :: xs).find? (fun item => jsonFieldEqStr item "name" n2)
              = none →
          resolveObjectTypePick n2 (x :: xs) = some x) := by
  refine ⟨?_, ?_, ?_⟩
  · have hb : (name == "") = false := by simp [hne]
    simp [OntologyNamespace.load_object_type, optStrTruthy, hb, hlk, hfetch,
      hne]
  · intro n2 x xs c hfind
    simp [resolveObjectTypePick, hfind]
  · intro n2 x xs hfind
    simp [resolveObjectTypePick, hfind]

/-- C3 amended witness: with candidates `[{FooBar}, {Foo}]`, loading `"Foo"`
proceeds from the first candidate; the knowledge-graph resolver picks the
exact match `{Foo}` for `"Foo"` and falls back to the first candidate for a
name with no exact match. -/
theorem load_object_type_pick_amended_witness :
    (OntologyNamespace.load_object_type ⟨[], []⟩ none (some "Foo")
        (fun _ => .error "unused")
        (fun _ => .ok
          [Json.obj [("id", Json.str "id1"), ("name", Json.str "FooBar")],
           Json.obj [("id", Json.str "id2"), ("name", Json.str "Foo")]])
        (fun _ => .ok [])
      = OntologyNamespace.loadFromOtData ⟨[], []⟩
          (Json.obj [("id", Json.str "id1"), ("name", Json.str "FooBar")])
          (fun _ => .ok []))
      ∧ resolveObjectTypePick "Foo"
          [Json.obj [("id", Json.str "id1"), ("name", Json.str "FooBar")],
           Json.obj [("id", Json.str "id2"), ("name", Json.str "Foo")]]
        = some (Json.obj [("id", Json.str "id2"), ("name", Json.str "Foo")])
      ∧ resolveObjectTypePick "Zed"
          [Json.obj [("id", Json.str "id1"), ("name", Json.str "FooBar")],
           Json.obj [("id", Json.str "id2"), ("name", Json.str "Foo")]]
        = some (Json.obj [("id", Json.str "id1"),
                          ("name", Json.str "FooBar")]) := by
  refine ⟨?_, ?_, ?_⟩
  · exact (load_object_type_pick_amended ⟨[], []⟩ "Foo"
      (Json.obj [("id", Json.str "id1"), ("name", Json.str "FooBar")])
      [Json.obj [("id", Json.str "id2"), ("name", Json.str "Foo")]]
      (fun _ => .error "unused")
      (fun _ => .ok
        [Json.obj [("id", Json.str "id1"), ("name", Json.str "FooBar")],
         Json.obj [("id", Json.str "id2"), ("name", Json.str "Foo")]])
      (fun _ => .ok []) (by decide) rfl rfl).1
  · exact (load_object_type_pick_amended ⟨[], []⟩ "Foo"
      (Json.obj [("id", Json.str "id1"), ("name", Json.str "FooBar")])
      [Json.obj [("id", Json.str "id2"), ("name", Json.str "Foo")]]
      (fun _ => .error "unused")
      (fun _ => .ok
        [Json.obj [("id", Json.str "id1"), ("name", Json.str "FooBar")],
         Json.obj [("id", Json.str "id2"), ("name", Json.str "Foo")]])
      (fun _ => .ok []) (by decide) rfl rfl).2.1 "Foo"
      (Json.obj [("id", Json.str "id1"), ("name", Json.str "FooBar")])
      [Json.obj [("id", Json.str "id2"), ("name", Json.str "Foo")]]
      (Json.obj [("id", Json.str "id2"), ("name", Json.str "Foo")]) rfl
  · exact (load_object_type_pick_amended ⟨[], []⟩ "Foo"
      (Json.obj [("id", Json.str "id1"), ("name", Json.str "FooBar")])
      [Json.obj [("id", Json.str "id2"), ("name", Json.str "Foo")]]
      (fun _ => .error "unused")
      (fun _ => .ok
        [Json.obj [("id", Json.str "id1"), ("name", Json.str "FooBar")],
         Json.obj [("id", Json.str "id2"), ("name", Json.str "Foo")]])
      (fun _ => .ok []) (by decide) rfl rfl).2.2 "Zed"
      (Json.obj [("id", Json.str "id1"), ("name", Json.str "FooBar")])
      [Json.obj [("id", Json.str "id2"), ("name", Json.str "Foo")]] rfl
